import Mathlib

/-!
# teleposter: the reaction store and the update-intake core

A shallow embedding of `teleposter.go`.

* The SQLite tables `likes`, `authors` and `unsupported_messages` are lists of
  rows; `INSERT` appends a row, `DELETE ... WHERE c` keeps the rows that do not
  satisfy `c`, and `RowsAffected` is the number of rows that satisfied `c`.
  Statements on the store are taken to succeed (the store is a collaborator).
* Integer columns and identifiers are `Int`.  The only arithmetic on an
  identifier is `handleUpdate(update) + 1` in `main`, which is done on `int64`
  and is modelled with an explicit wrap.  The counters of `getLikeKeyboard` are
  natural numbers: a counter never exceeds the number of rows of `likes`, and a
  rowid table of SQLite holds at most `2^63 - 1` rows, so the Go `int` counter
  cannot wrap.
* A `log.Panic` or a run-time panic (nil dereference, index out of range) ends
  the run; since the store lives on disk, the outcome of a panic still carries
  the state reached so far.
* `bot.request` is a collaborator: its answer is given by a function of the
  call and of the calls issued before it.  Logging is not modelled.
-/

namespace Teleposter

/-! ## Data model -/

/-- Row of table `likes` (`post_id`, `reaction_type`, `user_id`). -/
structure LikeRow where
  post_id : Int
  reaction_type : Int
  user_id : Int
deriving DecidableEq, Repr

/-- Row of table `authors` (`post_id`, `author_id`). -/
structure AuthorRow where
  post_id : Int
  author_id : Int
deriving DecidableEq, Repr

/-- Row of table `unsupported_messages` (`forwarded_post_id`, `keyboard_post_id`). -/
structure UnsupportedRow where
  forwarded_post_id : Int
  keyboard_post_id : Int
deriving DecidableEq, Repr

/-- The database behind `bot.db`: the three tables created by `main`. -/
structure DB where
  likes : List LikeRow
  authors : List AuthorRow
  unsupported_messages : List UnsupportedRow
deriving DecidableEq, Repr

/-- The store right after the `CREATE TABLE IF NOT EXISTS` statements on a fresh file. -/
def DB.empty : DB := ⟨[], [], []⟩

/-- The catalog `var reactions = [...]string{...}` (the second symbol ends in a blank). -/
def reactions : List String := ["🍰", "🤔 ", "[|||]"]

/-! ## The toggle `like` -/

/-- The condition `post_id = ? AND reaction_type = ? AND user_id = ?` of the first `DELETE`. -/
def isVote (postId reactionType userId : Int) (r : LikeRow) : Bool :=
  decide (r.post_id = postId ∧ r.reaction_type = reactionType ∧ r.user_id = userId)

/-- The condition `post_id = ? AND user_id = ?` of the second `DELETE`. -/
def isVoter (postId userId : Int) (r : LikeRow) : Bool :=
  decide (r.post_id = postId ∧ r.user_id = userId)

/-- The function `like(postId, reactionType, userId, name)`: delete the rows of exactly this
vote and count them, delete every row of this user on this post, and insert the vote again when
the count was even.  `name` is only logged. -/
def like (db : DB) (postId : Int) (reactionType : Int) (userId : Int) (_name : String) : DB :=
  let likes_cnt := (db.likes.filter (isVote postId reactionType userId)).length
  let likes1 := db.likes.filter (fun r => !isVote postId reactionType userId r)
  let likes2 := likes1.filter (fun r => !isVoter postId userId r)
  if likes_cnt % 2 == 0 then
    { db with likes := likes2 ++ [⟨postId, reactionType, userId⟩] }
  else
    { db with likes := likes2 }

/-- One toggle request `(post, kind, user, name)`. -/
structure Press where
  postId : Int
  reactionType : Int
  userId : Int
  name : String
deriving DecidableEq, Repr

/-- A finite sequence of toggles applied in order. -/
def likeAll (db : DB) (ps : List Press) : DB :=
  ps.foldl (fun d p => like d p.postId p.reactionType p.userId p.name) db

/-- The same toggle applied `n` times in a row. -/
def likeN (db : DB) (postId reactionType userId : Int) (name : String) : Nat → DB
  | 0 => db
  | n + 1 => like (likeN db postId reactionType userId name n) postId reactionType userId name

/-- The rows of user `u` on post `p`. -/
def rowsOf (db : DB) (p u : Int) : List LikeRow :=
  db.likes.filter (isVoter p u)

/-- The number of rows `(p, k, u)`. -/
def votes (db : DB) (p k u : Int) : Nat :=
  (db.likes.filter (isVote p k u)).length

/-- The one-vote invariant: every (post, user) pair has at most one row. -/
def OneVote (db : DB) : Prop :=
  ∀ p u : Int, (rowsOf db p u).length ≤ 1

/-! ## The keyboard renderer `getLikeKeyboard` -/

/-- The loop `for rows.Next()` of `getLikeKeyboard` over the selected `reaction_type` values:
a value outside the catalog is the panic "Bad reaction type" (`none`), any other value `i` does
`reactions_cnt[i] += 1`. -/
def countRows : List Int → List Nat → Option (List Nat)
  | [], cnt => some cnt
  | reaction_type :: rest, cnt =>
    if reaction_type < 0 ∨ reaction_type ≥ (reactions.length : Int) then none
    else countRows rest (cnt.set reaction_type.toNat (cnt.getD reaction_type.toNat 0 + 1))

/-- The array `reactions_cnt` of `getLikeKeyboard` when the loops are over: all zero for a nil
`postId`, otherwise the tally of `SELECT reaction_type FROM likes WHERE post_id = ?`. -/
def reactions_cnt (db : DB) (postId : Option Int) : Option (List Nat) :=
  match postId with
  | none => some (List.replicate reactions.length 0)
  | some p =>
    countRows ((db.likes.filter (fun r => decide (r.post_id = p))).map (fun r => r.reaction_type))
      (List.replicate reactions.length 0)

/-- One `fmt.Fprintf(&keyboard, ...)` of the rendering loop: the button of kind `i` with count
`cnt` (`i` is always an index of the catalog). -/
def button (i : Nat) (cnt : Nat) : String :=
  "\x7b\"text\":\"" ++ reactions.getD i "" ++ " " ++ toString cnt ++
    "\",\"callback_data\":\"" ++ toString i ++ "\"\x7d"

/-- The loop `for i, cnt := range reactions_cnt` writing into the builder `keyboard`. -/
def writeButtons : List Nat → Nat → String → String
  | [], _, keyboard => keyboard
  | cnt :: rest, i, keyboard =>
    let keyboard1 := if i != 0 then keyboard ++ "," else keyboard
    writeButtons rest (i + 1) (keyboard1 ++ button i cnt)

/-- The function `getLikeKeyboard(postId)`; `none` is the panic "Bad reaction type". -/
def getLikeKeyboard (db : DB) (postId : Option Int) : Option String :=
  match reactions_cnt db postId with
  | none => none
  | some cnt => some (writeButtons cnt 0 "\x7b\"inline_keyboard\":[[" ++ "]]\x7d")

/-- The number of rows of post `p` with kind `k`. -/
def kindCount (db : DB) (p k : Int) : Nat :=
  (db.likes.filter (fun r => decide (r.post_id = p ∧ r.reaction_type = k))).length

/-- The keyboard text in the words of the specification: one button per catalog kind, in catalog
order, each labelled with its symbol and its count in decimal and carrying its own index as
callback data. -/
def spec_keyboard (c0 c1 c2 : Nat) : String :=
  "\x7b\"inline_keyboard\":[[\x7b\"text\":\"🍰 " ++ toString c0 ++
    "\",\"callback_data\":\"0\"\x7d,\x7b\"text\":\"🤔  " ++ toString c1 ++
    "\",\"callback_data\":\"1\"\x7d,\x7b\"text\":\"[|||] " ++ toString c2 ++
    "\",\"callback_data\":\"2\"\x7d]]\x7d"

/-! ## The remote collaborator and the state of a run -/

/-- A value of the parameter map of `bot.request` (rendered there with `%v`). -/
inductive Value where
  | int (i : Int)
  | str (s : String)
deriving DecidableEq, Repr

/-- One call of `bot.request`: the method and the parameter map.  The map is kept as the list of
its entries in the order the code assigns them; no key is assigned twice. -/
structure Call where
  method : String
  params : List (String × Value)
deriving DecidableEq, Repr

/-- What `json.Unmarshal(answer, &tMessage)` makes of a result payload: an error, or a message
whose `Message_id` is nil or set. -/
inductive Payload where
  | malformed
  | message (Message_id : Option Int)
deriving DecidableEq, Repr

/-- What `bot.request` returns: an error, or the result payload. -/
inductive Answer where
  | error
  | result (payload : Payload)
deriving DecidableEq, Repr

/-- The remote side: the answer to a call, given the calls issued before it. -/
abbrev Remote := Call → List Call → Answer

/-- The state of a run: the database and the calls issued so far. -/
structure World where
  db : DB
  calls : List Call
deriving DecidableEq, Repr

/-- Outcome of a step: it returns `a` in state `w`, or it panics in state `w`. -/
inductive Res (α : Type) where
  | ok (w : World) (a : α)
  | panic (w : World)
deriving DecidableEq, Repr

/-- The state an outcome ends in. -/
def Res.world {α : Type} : Res α → World
  | .ok w _ => w
  | .panic w => w

/-- Whether `json.Unmarshal` of a raw payload into the expected type fails or yields `v`. -/
inductive Raw (α : Type) where
  | malformed
  | decoded (v : α)
deriving DecidableEq, Repr

/-- The method `bot.request(method, params)`: the call is recorded and answered by the remote. -/
def request (remote : Remote) (w : World) (method : String) (params : List (String × Value)) :
    World × Answer :=
  ({ w with calls := w.calls ++ [⟨method, params⟩] }, remote ⟨method, params⟩ w.calls)

/-! ## `handleMessage` -/

/-- The local type `tChat`. -/
structure tChat where
  Id : Option Int
deriving DecidableEq, Repr

/-- The local type `tAnimation`. -/
structure tAnimation where
  File_id : String
  Width : Option Int
  Height : Option Int
  Duration : Option Int
deriving DecidableEq, Repr

/-- The local type `tPhoto`. -/
structure tPhoto where
  File_id : String
deriving DecidableEq, Repr

/-- The local type `tMessage` of `handleMessage`, with the fields the function reads.  `Photo` is
a slice: `none` is the nil slice, `some l` a non-nil one.  `Caption` is a `*interface{}`; it is
kept as the text `%v` gives for it. -/
structure tMessage where
  Message_id : Option Int
  Chat : Option tChat
  Text : Option String
  Animation : Option tAnimation
  Photo : Option (List tPhoto)
  Caption : Option String
deriving DecidableEq, Repr

/-- The choice of reply in `handleMessage` (the chain `if message.Text != nil ... else`):
`supported`, `replyMethod` and `params`. -/
structure Reply where
  supported : Bool
  replyMethod : String
  params : List (String × Value)
deriving DecidableEq, Repr

/-- The chain `if message.Text != nil ... else if message.Photo != nil ... else if
message.Animation != nil ... else` of `handleMessage`.  `none` is a run-time panic: `Photo[0]` on
an empty non-nil slice, or a nil `Width`, `Height` or `Duration`. -/
def chooseReply (chatId : Int) (message : tMessage) : Option Reply :=
  let params : List (String × Value) := [("chat_id", .int chatId)]
  match message.Text with
  | some text => some ⟨true, "sendMessage", params ++ [("text", .str text)]⟩
  | none =>
    match message.Photo with
    | some photo =>
      match photo with
      | [] => none
      | photo0 :: _ => some ⟨true, "sendPhoto", params ++ [("photo", .str photo0.File_id)]⟩
    | none =>
      match message.Animation with
      | some animation =>
        match animation.Width, animation.Height, animation.Duration with
        | some width, some height, some duration =>
          let params1 := params ++ [("animation", .str animation.File_id), ("width", .int width),
            ("height", .int height), ("duration", .int duration)]
          match message.Caption with
          | some caption => some ⟨true, "sendAnimation", params1 ++ [("caption", .str caption)]⟩
          | none => some ⟨true, "sendAnimation", params1⟩
        | _, _, _ => none
      | none => some ⟨false, "", params⟩

/-- The function `handleMessage(messageJson)`; `chatId` is `bot.chatId`. -/
def handleMessage (remote : Remote) (chatId : Int) (w : World) (messageJson : Raw tMessage) :
    Res Unit :=
  match messageJson with
  | .malformed => .panic w
  | .decoded message =>
    match message.Message_id, message.Chat with
    | some messageId, some ⟨some fromChatId⟩ =>
      let w1 : World := { w with db := { w.db with authors := w.db.authors ++ [⟨messageId, fromChatId⟩] } }
      match chooseReply chatId message with
      | none => .panic w1
      | some ⟨true, replyMethod, params⟩ =>
        match getLikeKeyboard w1.db none with
        | none => .panic w1
        | some keyboard =>
          match request remote w1 replyMethod (params ++ [("reply_markup", .str keyboard)]) with
          | (w2, .error) => .panic w2
          | (w2, .result _) => .ok w2 ()
      | some ⟨false, _, params⟩ =>
        match request remote w1 "forwardMessage"
          [("chat_id", .int chatId), ("from_chat_id", .int fromChatId), ("message_id", .int messageId)] with
        | (w2, .error) => .panic w2
        | (w2, .result .malformed) => .panic w2
        | (w2, .result (.message none)) => .panic w2
        | (w2, .result (.message (some forwardedMessageId))) =>
          match getLikeKeyboard w2.db none with
          | none => .panic w2
          | some keyboard =>
            match request remote w2 "sendMessage"
              (params ++ [("text", .str "^^Нраица?"), ("reply_markup", .str keyboard)]) with
            | (w3, .error) => .panic w3
            | (w3, .result .malformed) => .panic w3
            | (w3, .result (.message none)) => .panic w3
            | (w3, .result (.message (some sentMessageId))) =>
              .ok { w3 with db := { w3.db with unsupported_messages :=
                w3.db.unsupported_messages ++ [⟨forwardedMessageId, sentMessageId⟩] } } ()
    | _, _ => .panic w

/-! ## `handleCallback` -/

/-- The largest `int64`. -/
def maxInt64 : Int := 2 ^ 63 - 1

/-- The smallest `int64`. -/
def minInt64 : Int := -(2 ^ 63)

/-- The largest `uint64`. -/
def maxUint64 : Nat := 2 ^ 64 - 1

/-- The two errors of the library package `strconv`: the text is not a number (`invalid`), or
the number does not fit (`range`). -/
inductive NumError where
  | invalid
  | range
deriving DecidableEq, Repr

/-- The digit loop of the library function `strconv.ParseUint(s, 10, 64)`, byte after byte, `n`
being the value read so far: a byte that is not a decimal digit returns 0 and the error
`invalid`; a digit that takes the value beyond `uint64` returns the largest `uint64` and the
error `range` at once, without reading the bytes that follow.  Every byte of a character
outside ASCII is a byte that is not a digit. -/
def parseUintLoop : List Char → Nat → Nat × Option NumError
  | [], n => (n, none)
  | c :: rest, n =>
    if !c.isDigit then (0, some .invalid)
    else if n ≥ maxUint64 / 10 + 1 then (maxUint64, some .range)
    else if n * 10 + (c.toNat - 48) > maxUint64 then (maxUint64, some .range)
    else parseUintLoop rest (n * 10 + (c.toNat - 48))

/-- The library function `strconv.ParseUint(s, 10, 64)`. -/
def ParseUint (s : List Char) : Nat × Option NumError :=
  if s.isEmpty then (0, some .invalid) else parseUintLoop s 0

/-- The library function `strconv.ParseInt(s, 10, 0)` on a 64-bit platform: one leading sign is
picked off, the rest is read by `ParseUint`; the error `invalid` returns 0, a magnitude outside
`int64` returns the nearest bound and the error `range`. -/
def ParseInt (s : List Char) : Int × Option NumError :=
  match s with
  | [] => (0, some .invalid)
  | c :: rest =>
    let neg : Bool := c == '-'
    let s1 := if c == '+' || c == '-' then rest else c :: rest
    match ParseUint s1 with
    | (_, some .invalid) => (0, some .invalid)
    | (un, _) =>
      if !neg && un ≥ 2 ^ 63 then (maxInt64, some .range)
      else if neg && un > 2 ^ 63 then (minInt64, some .range)
      else (if neg then -(un : Int) else (un : Int), none)

/-- The digit loop of the fast path of `strconv.Atoi`: `none` is the error `invalid`. -/
def atoiFastLoop : List Char → Int → Option Int
  | [], n => some n
  | ch :: rest, n =>
    if !ch.isDigit then none
    else atoiFastLoop rest (n * 10 + ((ch.toNat - 48 : Nat) : Int))

/-- The library function `strconv.Atoi` on a 64-bit platform: the value returned and whether
the error returned is non-nil.  A text of 1 to 18 bytes takes the fast path (one optional sign,
then digits only, else 0 and an error); every other text goes through `ParseInt`. -/
def Atoi (s : String) : Int × Bool :=
  let sLen := s.utf8ByteSize
  if 0 < sLen ∧ sLen < 19 then
    match s.toList with
    | [] => (0, true)
    | c :: rest =>
      let digits := if c == '-' || c == '+' then rest else c :: rest
      if digits.isEmpty then (0, true)
      else
        match atoiFastLoop digits 0 with
        | none => (0, true)
        | some n => (if c == '-' then -n else n, false)
  else
    ((ParseInt s.toList).1, (ParseInt s.toList).2.isSome)

/-- The local type `tMessage` of `handleCallback`. -/
structure tCallbackMessage where
  Message_id : Option Int
  Chat : Option tChat
deriving DecidableEq, Repr

/-- The local type `tUser` of `handleCallback`. -/
structure tUser where
  Id : Option Int
  First_name : String
deriving DecidableEq, Repr

/-- The local type `tCallbackQuery`. -/
structure tCallbackQuery where
  Message : Option tCallbackMessage
  From : Option tUser
  Data : Option String
deriving DecidableEq, Repr

/-- The function `handleCallback(callbackQueryJson)`.  The error of `strconv.Atoi` is assigned
and never read; the answer of `editMessageReplyMarkup` is dropped. -/
def handleCallback (remote : Remote) (w : World) (callbackQueryJson : Raw tCallbackQuery) :
    Res Unit :=
  match callbackQueryJson with
  | .malformed => .panic w
  | .decoded callbackQuery =>
    match callbackQuery.Data with
    | none => .panic w
    | some data =>
      let num := (Atoi data).1
      if num < 0 ∨ num ≥ (reactions.length : Int) then .panic w
      else
        match callbackQuery.Message, callbackQuery.From with
        | some ⟨some messageId, chat⟩, some ⟨some userId, firstName⟩ =>
          let w1 : World := { w with db := like w.db messageId num userId firstName }
          match chat with
          | some ⟨some chatId⟩ =>
            match getLikeKeyboard w1.db (some messageId) with
            | none => .panic w1
            | some keyboard =>
              .ok (request remote w1 "editMessageReplyMarkup"
                [("chat_id", .int chatId), ("message_id", .int messageId),
                  ("reply_markup", .str keyboard)]).1 ()
          | _ => .panic w1
        | _, _ => .panic w

/-! ## `handleUpdate` and the poll loop of `main` -/

/-- The type `tUpdate`, with the fields that have an effect: the other optional fields only
decide whether a line is logged. -/
structure tUpdate where
  Update_id : Option Int
  Message : Option (Raw tMessage)
  Callback_query : Option (Raw tCallbackQuery)
deriving DecidableEq, Repr

/-- The function `handleUpdate(update)`: it returns `*update.Update_id`. -/
def handleUpdate (remote : Remote) (chatId : Int) (w : World) (update : tUpdate) : Res Int :=
  match update.Update_id with
  | none => .panic w
  | some updateId =>
    let r1 : Res Unit :=
      match update.Message with
      | some message => handleMessage remote chatId w message
      | none => .ok w ()
    match r1 with
    | .panic w1 => .panic w1
    | .ok w1 _ =>
      let r2 : Res Unit :=
        match update.Callback_query with
        | some callback => handleCallback remote w1 callback
        | none => .ok w1 ()
      match r2 with
      | .panic w2 => .panic w2
      | .ok w2 _ => .ok w2 updateId

/-- The result of an `int64` operation whose exact value is `x`. -/
def wrapInt64 (x : Int) : Int :=
  (x + 2 ^ 63) % 2 ^ 64 - 2 ^ 63

/-- The loop `for _, update := range updates` of `main`: `offset = handleUpdate(update) + 1;
poffset = &offset`.  The value carried is `poffset` (`none` for nil), which is what the next
`getUpdates` receives. -/
def pollBatch (remote : Remote) (chatId : Int) : World → Option Int → List tUpdate → Res (Option Int)
  | w, poffset, [] => .ok w poffset
  | w, _, update :: rest =>
    match handleUpdate remote chatId w update with
    | .panic w1 => .panic w1
    | .ok w1 updateId => pollBatch remote chatId w1 (some (wrapInt64 (updateId + 1))) rest

/-! ## A sample remote side -/

/-- A remote side that answers every `forwardMessage` with message 100 and every other call
with message 101. -/
def sampleRemote : Remote := fun call _ =>
  if call.method = "forwardMessage" then .result (.message (some 100))
  else .result (.message (some 101))

/-! ## Lemmas on the toggle -/

/-- Deleting the rows of one vote and then the rows of its voter is deleting the rows of the
voter. -/
theorem filter_vote_voter (p k u : Int) (l : List LikeRow) :
    (l.filter (fun r => !isVote p k u r)).filter (fun r => !isVoter p u r) =
      l.filter (fun r => !isVoter p u r) := by
  rw [List.filter_filter]
  apply List.filter_congr
  intro r _
  by_cases h1 : r.post_id = p <;> by_cases h2 : r.user_id = u <;> simp [isVote, isVoter, h1, h2]

/-- The table `likes` after a toggle: the rows of other posts and other users, in their order,
followed by the fresh vote when the number of deleted rows of that very vote was even. -/
theorem like_likes (db : DB) (p k u : Int) (name : String) :
    (like db p k u name).likes =
      db.likes.filter (fun r => !isVoter p u r) ++
        (if votes db p k u % 2 = 0 then [⟨p, k, u⟩] else []) := by
  simp only [like, votes, filter_vote_voter]
  by_cases h : (List.filter (isVote p k u) db.likes).length % 2 = 0
  · simp [h]
  · simp [h]

theorem like_authors (db : DB) (p k u : Int) (name : String) :
    (like db p k u name).authors = db.authors := by
  simp only [like]
  split <;> rfl

theorem like_unsupported (db : DB) (p k u : Int) (name : String) :
    (like db p k u name).unsupported_messages = db.unsupported_messages := by
  simp only [like]
  split <;> rfl

/-- The rows of the toggled (post, user) pair after a toggle. -/
theorem rowsOf_like_self (db : DB) (p k u : Int) (name : String) :
    rowsOf (like db p k u name) p u =
      if votes db p k u % 2 = 0 then [⟨p, k, u⟩] else [] := by
  simp only [rowsOf, like_likes, List.filter_append, List.filter_filter]
  by_cases h : votes db p k u % 2 = 0
  · simp [h, isVoter]
  · simp [h]

/-- The rows of any other (post, user) pair are those of before. -/
theorem rowsOf_like_other (db : DB) (p k u : Int) (name : String) (p' u' : Int)
    (h : ¬ (p' = p ∧ u' = u)) :
    rowsOf (like db p k u name) p' u' = rowsOf db p' u' := by
  simp only [rowsOf, like_likes, List.filter_append, List.filter_filter]
  have h1 : List.filter (isVoter p' u') (if votes db p k u % 2 = 0 then [⟨p, k, u⟩] else []) = [] := by
    split
    · simp only [List.filter_eq_nil_iff, List.mem_singleton, forall_eq, isVoter,
        decide_eq_true_eq]
      intro hh
      exact h ⟨hh.1.symm, hh.2.symm⟩
    · rfl
  rw [h1, List.append_nil]
  apply List.filter_congr
  intro r _
  by_cases a : r.post_id = p' <;> by_cases b : r.user_id = u' <;> simp [isVoter, a, b]
  subst a; subst b
  exact not_and_or.mp h

/-- The number of rows of a vote, read off the rows of its voter. -/
theorem votes_eq_rowsOf (db : DB) (p k u : Int) :
    votes db p k u = ((rowsOf db p u).filter (fun r => decide (r.reaction_type = k))).length := by
  simp only [votes, rowsOf, List.filter_filter]
  congr 1
  apply List.filter_congr
  intro r _
  by_cases h1 : r.post_id = p <;> by_cases h2 : r.user_id = u <;>
    by_cases h3 : r.reaction_type = k <;> simp [isVote, isVoter, h1, h2, h3]

/-- One toggle keeps the one-vote invariant. -/
theorem oneVote_like (db : DB) (h : OneVote db) (p k u : Int) (name : String) :
    OneVote (like db p k u name) := by
  intro p' u'
  by_cases hpu : p' = p ∧ u' = u
  · obtain ⟨rfl, rfl⟩ := hpu
    rw [rowsOf_like_self]
    split <;> simp
  · rw [rowsOf_like_other db p k u name p' u' hpu]
    exact h p' u'

theorem oneVote_likeAll (ps : List Press) : ∀ db : DB, OneVote db → OneVote (likeAll db ps) := by
  induction ps with
  | nil => intro db h; exact h
  | cons a rest ih =>
    intro db h
    exact ih _ (oneVote_like db h a.postId a.reactionType a.userId a.name)

theorem oneVote_empty : OneVote DB.empty := by
  intro p u
  simp [rowsOf, DB.empty]

/-- The rows of the toggled pair after `n` presses of the same button, starting without a row. -/
theorem rowsOf_likeN (db : DB) (p k u : Int) (name : String) (h : rowsOf db p u = []) (n : Nat) :
    rowsOf (likeN db p k u name n) p u = if n % 2 = 1 then [⟨p, k, u⟩] else [] := by
  induction n with
  | zero => simpa [likeN] using h
  | succ n ih =>
    simp only [likeN]
    rw [rowsOf_like_self, votes_eq_rowsOf, ih]
    rcases Nat.mod_two_eq_zero_or_one n with h0 | h1
    · have h2 : (n + 1) % 2 = 1 := by omega
      simp [h0, h2]
    · have h2 : (n + 1) % 2 = 0 := by omega
      simp [h1, h2]

/-! ## The claims on the toggle -/

/-- C1 (one-vote invariant): from a store in which every (post, user) pair has at most one row,
every finite sequence of toggles leads to a store in which every (post, user) pair has at most
one row; this holds in particular from the empty store created at startup. -/
theorem C1_one_vote_invariant (db : DB) (h : OneVote db) (ps : List Press) :
    OneVote (likeAll db ps) ∧ OneVote (likeAll DB.empty ps) :=
  ⟨oneVote_likeAll ps db h, oneVote_likeAll ps DB.empty oneVote_empty⟩

/-- Witness of C1: three presses on the store holding one vote. -/
theorem C1_one_vote_invariant_witness :
    OneVote ⟨[⟨1, 0, 7⟩], [], []⟩ ∧
      OneVote (likeAll ⟨[⟨1, 0, 7⟩], [], []⟩ [⟨1, 2, 7, "a"⟩, ⟨1, 2, 8, "b"⟩, ⟨3, 1, 7, "a"⟩]) :=
  have h0 : OneVote ⟨[⟨1, 0, 7⟩], [], []⟩ := by
    intro p u
    exact List.length_filter_le _ _
  ⟨h0, (C1_one_vote_invariant _ h0 [⟨1, 2, 7, "a"⟩, ⟨1, 2, 8, "b"⟩, ⟨3, 1, 7, "a"⟩]).1⟩

/-- C3 (kind switch): on every store, after user `u` presses kind `A` and then a different kind
`B` on post `p`, the store holds exactly one row `(p, B, u)` and no row `(p, A, u)`; that row is
the only row of `u` on `p`. -/
theorem C3_kind_switch (db : DB) (p u A B : Int) (nameA nameB : String) (hAB : A ≠ B) :
    votes (like (like db p A u nameA) p B u nameB) p B u = 1 ∧
      votes (like (like db p A u nameA) p B u nameB) p A u = 0 ∧
      rowsOf (like (like db p A u nameA) p B u nameB) p u = [⟨p, B, u⟩] := by
  have h1 : votes (like db p A u nameA) p B u = 0 := by
    rw [votes_eq_rowsOf, rowsOf_like_self]
    split <;> simp [hAB]
  have h2 : rowsOf (like (like db p A u nameA) p B u nameB) p u = [⟨p, B, u⟩] := by
    rw [rowsOf_like_self, h1]; rfl
  refine ⟨?_, ?_, h2⟩
  · rw [votes_eq_rowsOf, h2]; simp
  · rw [votes_eq_rowsOf, h2]; simp [Ne.symm hAB]

/-- Witness of C3: the user of the stored vote of kind 2 presses kind 0 and then kind 1. -/
theorem C3_kind_switch_witness :
    votes (like (like ⟨[⟨1, 2, 7⟩, ⟨1, 0, 8⟩], [], []⟩ 1 0 7 "a") 1 1 7 "a") 1 1 7 = 1 ∧
      votes (like (like ⟨[⟨1, 2, 7⟩, ⟨1, 0, 8⟩], [], []⟩ 1 0 7 "a") 1 1 7 "a") 1 0 7 = 0 ∧
      rowsOf (like (like ⟨[⟨1, 2, 7⟩, ⟨1, 0, 8⟩], [], []⟩ 1 0 7 "a") 1 1 7 "a") 1 7 = [⟨1, 1, 7⟩] :=
  C3_kind_switch ⟨[⟨1, 2, 7⟩, ⟨1, 0, 8⟩], [], []⟩ 1 7 0 1 "a" "a" (by decide)

/-- C9 (odd number of presses): on a store in which user `u` has no row on post `p`, after an odd
number `n` of presses of the same button `(p, k, u)` the rows of `u` on `p` are exactly the one
row `(p, k, u)`, and after an even number there is none.  The kind `k` need not be in the
catalog for this. -/
theorem C9_odd_presses (db : DB) (p k u : Int) (name : String) (h : rowsOf db p u = [])
    (n : Nat) :
    (n % 2 = 1 → rowsOf (likeN db p k u name n) p u = [⟨p, k, u⟩] ∧
        votes (likeN db p k u name n) p k u = 1) ∧
      (n % 2 = 0 → rowsOf (likeN db p k u name n) p u = []) := by
  have hn := rowsOf_likeN db p k u name h n
  constructor
  · intro hodd
    rw [if_pos hodd] at hn
    refine ⟨hn, ?_⟩
    rw [votes_eq_rowsOf, hn]; simp
  · intro heven
    rw [if_neg (by omega)] at hn
    exact hn

/-- Witness of C9: three presses of kind 2 by a user without a row on post 1. -/
theorem C9_odd_presses_witness :
    rowsOf ⟨[⟨1, 0, 8⟩, ⟨2, 1, 7⟩], [], []⟩ 1 7 = [] ∧
      rowsOf (likeN ⟨[⟨1, 0, 8⟩, ⟨2, 1, 7⟩], [], []⟩ 1 2 7 "a" 3) 1 7 = [⟨1, 2, 7⟩] ∧
      rowsOf (likeN ⟨[⟨1, 0, 8⟩, ⟨2, 1, 7⟩], [], []⟩ 1 2 7 "a" 4) 1 7 = [] :=
  ⟨by decide,
    ((C9_odd_presses ⟨[⟨1, 0, 8⟩, ⟨2, 1, 7⟩], [], []⟩ 1 2 7 "a" (by decide) 3).1 (by decide)).1,
    (C9_odd_presses ⟨[⟨1, 0, 8⟩, ⟨2, 1, 7⟩], [], []⟩ 1 2 7 "a" (by decide) 4).2 (by decide)⟩

/-! ## Lemmas on the keyboard renderer -/

/-- The counting loop from a three-entry array: it panics exactly when some value is outside
the catalog, and otherwise adds to each entry the number of occurrences of its index. -/
theorem countRows_eq (rows : List Int) : ∀ a b c : Nat,
    countRows rows [a, b, c] =
      if ∀ x ∈ rows, 0 ≤ x ∧ x < 3 then
        some [a + rows.count 0, b + rows.count 1, c + rows.count 2]
      else none := by
  induction rows with
  | nil => intro a b c; simp [countRows]
  | cons x rest ih =>
    intro a b c
    by_cases hx : 0 ≤ x ∧ x < 3
    · have hx3 : x = 0 ∨ x = 1 ∨ x = 2 := by omega
      rcases hx3 with rfl | rfl | rfl
      · simp [countRows, reactions, ih, Nat.add_assoc, Nat.add_comm 1]
      · simp [countRows, reactions, ih, Nat.add_assoc, Nat.add_comm 1]
      · simp [countRows, reactions, ih, Nat.add_assoc, Nat.add_comm 1]
    · have h1 : ¬ ∀ y ∈ x :: rest, 0 ≤ y ∧ y < 3 := fun h => hx (h x (List.mem_cons_self _ _))
      rw [if_neg h1]
      have h2 : x < 0 ∨ x ≥ 3 := by omega
      simp [countRows, reactions, h2]

/-- The rendering loop on a three-entry tally writes the text of the specification. -/
theorem writeButtons_eq (c0 c1 c2 : Nat) :
    writeButtons [c0, c1, c2] 0 "\x7b\"inline_keyboard\":[[" ++ "]]\x7d" =
      spec_keyboard c0 c1 c2 := by
  have h0 : toString (0 : Nat) = "0" := rfl
  have h1 : toString (1 : Nat) = "1" := rfl
  have h2 : toString (2 : Nat) = "2" := rfl
  simp only [writeButtons, button, reactions, spec_keyboard]
  apply String.ext
  simp [String.data_append, h0, h1, h2]

theorem count_kind (l : List LikeRow) (p k : Int) :
    ((l.filter (fun r => decide (r.post_id = p))).map (fun r => r.reaction_type)).count k =
      (l.filter (fun r => decide (r.post_id = p ∧ r.reaction_type = k))).length := by
  induction l with
  | nil => simp
  | cons r rest ih =>
    by_cases h1 : r.post_id = p <;> by_cases h2 : r.reaction_type = k <;>
      simp [List.filter_cons, h1, h2, ih, List.count_cons]

theorem reactions_cnt_eq (db : DB) (p : Int) :
    reactions_cnt db (some p) =
      if ∀ r ∈ db.likes, r.post_id = p → 0 ≤ r.reaction_type ∧ r.reaction_type < 3 then
        some [kindCount db p 0, kindCount db p 1, kindCount db p 2]
      else none := by
  simp only [reactions_cnt, reactions, List.length_cons, List.length_nil, List.replicate]
  rw [countRows_eq]
  simp only [count_kind, kindCount, Nat.zero_add]
  have hiff : (∀ x ∈ (db.likes.filter (fun r => decide (r.post_id = p))).map
      (fun r => r.reaction_type), 0 ≤ x ∧ x < 3) ↔
      (∀ r ∈ db.likes, r.post_id = p → 0 ≤ r.reaction_type ∧ r.reaction_type < 3) := by
    simp only [List.mem_map, List.mem_filter, decide_eq_true_eq]
    constructor
    · intro h r hr hp
      exact h _ ⟨r, ⟨hr, hp⟩, rfl⟩
    · rintro h x ⟨r, ⟨hr, hp⟩, rfl⟩
      exact h r hr hp
  by_cases hc : ∀ r ∈ db.likes, r.post_id = p → 0 ≤ r.reaction_type ∧ r.reaction_type < 3
  · rw [if_pos hc, if_pos (hiff.mpr hc)]
  · rw [if_neg hc, if_neg (fun h => hc (hiff.mp h))]

theorem kindCount_perm (db db' : DB) (h : db'.likes.Perm db.likes) (p k : Int) :
    kindCount db' p k = kindCount db p k := by
  simp only [kindCount]
  exact (h.filter _).length_eq

theorem reactions_cnt_perm (db db' : DB) (h : db'.likes.Perm db.likes) (postId : Option Int) :
    reactions_cnt db' postId = reactions_cnt db postId := by
  cases postId with
  | none => rfl
  | some p =>
    rw [reactions_cnt_eq, reactions_cnt_eq]
    simp only [kindCount_perm db db' h]
    have hiff : (∀ r ∈ db'.likes, r.post_id = p → 0 ≤ r.reaction_type ∧ r.reaction_type < 3) ↔
        (∀ r ∈ db.likes, r.post_id = p → 0 ≤ r.reaction_type ∧ r.reaction_type < 3) :=
      ⟨fun hh r hr => hh r (h.mem_iff.mpr hr), fun hh r hr => hh r (h.mem_iff.mp hr)⟩
    simp only [hiff]

theorem getLikeKeyboard_perm (db db' : DB) (h : db'.likes.Perm db.likes) (postId : Option Int) :
    getLikeKeyboard db' postId = getLikeKeyboard db postId := by
  simp only [getLikeKeyboard, reactions_cnt_perm db db' h]

theorem getLikeKeyboard_eq (db : DB) (p : Int)
    (h : ∀ r ∈ db.likes, r.post_id = p → 0 ≤ r.reaction_type ∧ r.reaction_type < 3) :
    getLikeKeyboard db (some p) =
      some (spec_keyboard (kindCount db p 0) (kindCount db p 1) (kindCount db p 2)) := by
  simp only [getLikeKeyboard, reactions_cnt_eq, if_pos h, writeButtons_eq]

/-- C4 (keyboard rendering): when every row of post `p` carries a kind in 0..2,
`getLikeKeyboard(p)` returns exactly the text with the three buttons in catalog order, button
`i` showing the symbol of kind `i`, the number of rows of `p` with kind `i` in decimal, and the
callback data `i`; every store with the same rows in another order gives the same text; for a
nil post id every count is 0. -/
theorem C4_keyboard_rendering (db : DB) (p : Int)
    (h : ∀ r ∈ db.likes, r.post_id = p → 0 ≤ r.reaction_type ∧ r.reaction_type < 3) :
    getLikeKeyboard db (some p) =
        some (spec_keyboard (kindCount db p 0) (kindCount db p 1) (kindCount db p 2)) ∧
      (∀ db1 : DB, db1.likes.Perm db.likes →
        getLikeKeyboard db1 (some p) = getLikeKeyboard db (some p)) ∧
      getLikeKeyboard db none = some (spec_keyboard 0 0 0) :=
  ⟨getLikeKeyboard_eq db p h, fun db1 h1 => getLikeKeyboard_perm db db1 h1 (some p),
    by simp only [getLikeKeyboard, reactions_cnt, reactions, List.length_cons, List.length_nil,
      List.replicate, writeButtons_eq]⟩

/-- Witness of C4: the tally [2, 0, 1] of post 1, with the votes cast in one order and in another. -/
theorem C4_keyboard_rendering_witness :
    getLikeKeyboard ⟨[⟨1, 0, 5⟩, ⟨1, 2, 6⟩, ⟨2, 1, 7⟩, ⟨1, 0, 7⟩], [], []⟩ (some 1) =
        some "\x7b\"inline_keyboard\":[[\x7b\"text\":\"🍰 2\",\"callback_data\":\"0\"\x7d,\x7b\"text\":\"🤔  0\",\"callback_data\":\"1\"\x7d,\x7b\"text\":\"[|||] 1\",\"callback_data\":\"2\"\x7d]]\x7d" ∧
      getLikeKeyboard ⟨[⟨1, 0, 7⟩, ⟨2, 1, 7⟩, ⟨1, 0, 5⟩, ⟨1, 2, 6⟩], [], []⟩ (some 1) =
        getLikeKeyboard ⟨[⟨1, 0, 5⟩, ⟨1, 2, 6⟩, ⟨2, 1, 7⟩, ⟨1, 0, 7⟩], [], []⟩ (some 1) :=
  have h := C4_keyboard_rendering ⟨[⟨1, 0, 5⟩, ⟨1, 2, 6⟩, ⟨2, 1, 7⟩, ⟨1, 0, 7⟩], [], []⟩ 1 (by decide)
  ⟨h.1.trans (by decide), h.2.1 ⟨[⟨1, 0, 7⟩, ⟨2, 1, 7⟩, ⟨1, 0, 5⟩, ⟨1, 2, 6⟩], [], []⟩ (by decide)⟩

/-! ## Frame and double press -/

/-- Counting the rows that satisfy `a`: those that fail `q` and those that satisfy `q`. -/
theorem length_filter_split {α : Type} (a q : α → Bool) (l : List α) :
    (l.filter a).length =
      ((l.filter (fun x => !q x)).filter a).length + (l.filter (fun x => a x && q x)).length := by
  induction l with
  | nil => rfl
  | cons x rest ih =>
    cases hq : q x <;> cases ha : a x <;>
      simp only [List.filter_cons, ha, hq, Bool.not_true, Bool.not_false, Bool.and_self,
        Bool.and_true, Bool.and_false, Bool.false_eq_true, ↓reduceIte, List.length_cons] <;>
      omega

/-- The rows of post `p` with kind `j` are those of other users and those of user `u`. -/
theorem kind_split (l : List LikeRow) (p j u : Int) :
    (l.filter (fun r => decide (r.post_id = p ∧ r.reaction_type = j))).length =
      ((l.filter (fun r => !isVoter p u r)).filter
        (fun r => decide (r.post_id = p ∧ r.reaction_type = j))).length +
      (l.filter (isVote p j u)).length := by
  rw [length_filter_split (fun r => decide (r.post_id = p ∧ r.reaction_type = j)) (isVoter p u) l]
  congr 2
  apply List.filter_congr
  intro r _
  by_cases h1 : r.post_id = p <;> by_cases h2 : r.reaction_type = j <;>
    by_cases h3 : r.user_id = u <;> simp [isVote, isVoter, h1, h2, h3]

/-- The tally of post `p` after one toggle `(p, k, u)`, kind by kind. -/
theorem kindCount_like (db : DB) (p k u : Int) (name : String) (j : Int) :
    kindCount (like db p k u name) p j + votes db p j u =
      kindCount db p j + (if j = k ∧ votes db p k u % 2 = 0 then 1 else 0) := by
  simp only [kindCount, like_likes, List.filter_append, List.length_append]
  rw [kind_split db.likes p j u]
  simp only [votes]
  by_cases h : (List.filter (isVote p k u) db.likes).length % 2 = 0
  · by_cases hj : j = k
    · subst hj; simp [h]; omega
    · simp [h, hj, Ne.symm hj]
  · simp [h]

/-- The rows of another post are the same rows in the same order after a toggle. -/
theorem like_other_post (db : DB) (p k u : Int) (name : String) (q : Int) (hq : q ≠ p) :
    (like db p k u name).likes.filter (fun r => decide (r.post_id = q)) =
      db.likes.filter (fun r => decide (r.post_id = q)) := by
  simp only [like_likes, List.filter_append, List.filter_filter]
  have h1 : List.filter (fun r => decide (r.post_id = q))
      (if votes db p k u % 2 = 0 then [(⟨p, k, u⟩ : LikeRow)] else []) = [] := by
    split
    · simp [Ne.symm hq]
    · rfl
  rw [h1, List.append_nil]
  apply List.filter_congr
  intro r _
  by_cases a : r.post_id = q
  · subst a; simp [isVoter, hq]
  · simp [a]

/-- A toggle keeps, in order, every row of another post or another user. -/
theorem like_frame (db : DB) (p k u : Int) (name : String) :
    (like db p k u name).likes.filter (fun r => !isVoter p u r) =
      db.likes.filter (fun r => !isVoter p u r) := by
  rw [like_likes, List.filter_append, List.filter_filter]
  have h : List.filter (fun r => !isVoter p u r)
      (if votes db p k u % 2 = 0 then [(⟨p, k, u⟩ : LikeRow)] else []) = [] := by
    split
    · simp [isVoter]
    · rfl
  rw [h, List.append_nil]
  apply List.filter_congr
  intro r _
  simp

/-- The table `likes` after two presses of the same button. -/
theorem like_like_likes (db : DB) (p k u : Int) (name1 name2 : String) :
    (like (like db p k u name1) p k u name2).likes =
      db.likes.filter (fun r => !isVoter p u r) ++
        (if votes db p k u % 2 = 0 then [] else [⟨p, k, u⟩]) := by
  have hv : votes (like db p k u name1) p k u = if votes db p k u % 2 = 0 then 1 else 0 := by
    rw [votes_eq_rowsOf, rowsOf_like_self]
    split <;> simp
  rw [like_likes (like db p k u name1), hv, like_frame]
  by_cases h : votes db p k u % 2 = 0
  · simp [h]
  · simp [h]

/-- Two presses of the same button by a user whose rows on the post are none, or one row of that
kind, give back the same rows up to their order. -/
theorem like_like_perm (db : DB) (p k u : Int) (name1 name2 : String)
    (h1 : ∀ r ∈ rowsOf db p u, r.reaction_type = k) (h2 : (rowsOf db p u).length ≤ 1) :
    (like (like db p k u name1) p k u name2).likes.Perm db.likes := by
  rw [like_like_likes]
  have hv : votes db p k u = (rowsOf db p u).length := by
    rw [votes_eq_rowsOf]
    congr 1
    apply List.filter_eq_self.mpr
    intro r hr
    simp [h1 r hr]
  have hx : (if votes db p k u % 2 = 0 then [] else [(⟨p, k, u⟩ : LikeRow)]) = rowsOf db p u := by
    rw [hv]
    match hrows : rowsOf db p u, h2 with
    | [], _ => simp
    | [r], _ =>
      have hr : r ∈ rowsOf db p u := by rw [hrows]; simp
      have hk := h1 r hr
      simp only [rowsOf, List.mem_filter, isVoter, decide_eq_true_eq] at hr
      obtain ⟨a, b, c⟩ := r
      simp only at hk hr
      simp [hk, hr.2.1, hr.2.2]
    | _ :: _ :: _, h3 => simp at h3
  rw [hx]
  exact List.perm_append_comm.trans (List.filter_append_perm (isVoter p u) db.likes)

/-! ## The claims on the frame and on the double press -/

/-- C10 (frame of the toggle): `like(p, k, u)` keeps, in their order and hence with their
multiplicity, the rows of other posts and of other users; the tally and the keyboard of every
other post are unchanged; on post `p` the count of kind `j` drops by the number of rows
`(p, j, u)` and, for `j = k` only, rises by one when the number of rows `(p, k, u)` was even; the
other two tables are untouched. -/
theorem C10_toggle_frame (db : DB) (p k u : Int) (name : String) :
    (like db p k u name).likes.filter (fun r => !isVoter p u r) =
        db.likes.filter (fun r => !isVoter p u r) ∧
      (∀ r : LikeRow, r.post_id ≠ p ∨ r.user_id ≠ u →
        (like db p k u name).likes.count r = db.likes.count r) ∧
      (∀ q : Int, q ≠ p →
        reactions_cnt (like db p k u name) (some q) = reactions_cnt db (some q) ∧
        getLikeKeyboard (like db p k u name) (some q) = getLikeKeyboard db (some q) ∧
        ∀ j : Int, kindCount (like db p k u name) q j = kindCount db q j) ∧
      (∀ j : Int, kindCount (like db p k u name) p j + votes db p j u =
        kindCount db p j + (if j = k ∧ votes db p k u % 2 = 0 then 1 else 0)) ∧
      (like db p k u name).authors = db.authors ∧
      (like db p k u name).unsupported_messages = db.unsupported_messages := by
  refine ⟨like_frame db p k u name, ?_, ?_, kindCount_like db p k u name,
    like_authors db p k u name, like_unsupported db p k u name⟩
  · intro r hr
    have hnv : (fun r => !isVoter p u r) r = true := by
      rcases hr with h | h <;> simp [isVoter, h]
    have ha := List.count_filter (p := fun r => !isVoter p u r) (a := r) (l := (like db p k u name).likes) hnv
    have hb := List.count_filter (p := fun r => !isVoter p u r) (a := r) (l := db.likes) hnv
    rw [← ha, ← hb, like_frame]
  · intro q hq
    have hrows := like_other_post db p k u name q hq
    have hcnt : reactions_cnt (like db p k u name) (some q) = reactions_cnt db (some q) := by
      simp only [reactions_cnt, hrows]
    refine ⟨hcnt, by simp only [getLikeKeyboard, hcnt], ?_⟩
    intro j
    have h2 := congrArg (fun l => (List.filter (fun r => decide (r.reaction_type = j)) l).length) hrows
    simp only [List.filter_filter] at h2
    simp only [kindCount]
    convert h2 using 3 <;> (funext r; simp [Bool.and_comm])

/-- Witness of C10: user 7 moves the vote on post 1 from kind 0 to kind 2; the row of user 8
on post 1 and the tally of post 2 stay as they were, and kind 0 of post 1 loses one vote. -/
theorem C10_toggle_frame_witness :
    (like ⟨[⟨1, 0, 7⟩, ⟨1, 0, 8⟩, ⟨2, 1, 7⟩], [], []⟩ 1 2 7 "a").likes.count ⟨1, 0, 8⟩ =
        (⟨[⟨1, 0, 7⟩, ⟨1, 0, 8⟩, ⟨2, 1, 7⟩], [], []⟩ : DB).likes.count ⟨1, 0, 8⟩ ∧
      reactions_cnt (like ⟨[⟨1, 0, 7⟩, ⟨1, 0, 8⟩, ⟨2, 1, 7⟩], [], []⟩ 1 2 7 "a") (some 2) =
        reactions_cnt ⟨[⟨1, 0, 7⟩, ⟨1, 0, 8⟩, ⟨2, 1, 7⟩], [], []⟩ (some 2) ∧
      kindCount (like ⟨[⟨1, 0, 7⟩, ⟨1, 0, 8⟩, ⟨2, 1, 7⟩], [], []⟩ 1 2 7 "a") 1 0 +
          votes ⟨[⟨1, 0, 7⟩, ⟨1, 0, 8⟩, ⟨2, 1, 7⟩], [], []⟩ 1 0 7 =
        kindCount ⟨[⟨1, 0, 7⟩, ⟨1, 0, 8⟩, ⟨2, 1, 7⟩], [], []⟩ 1 0 +
          (if (0 : Int) = 2 ∧ votes ⟨[⟨1, 0, 7⟩, ⟨1, 0, 8⟩, ⟨2, 1, 7⟩], [], []⟩ 1 2 7 % 2 = 0
            then 1 else 0) :=
  have h := C10_toggle_frame ⟨[⟨1, 0, 7⟩, ⟨1, 0, 8⟩, ⟨2, 1, 7⟩], [], []⟩ 1 2 7 "a"
  ⟨h.2.1 ⟨1, 0, 8⟩ (by decide), (h.2.2.1 2 (by decide)).1, h.2.2.2.1 0⟩

/-- Counterexample to C2 as stated: user 7 holds a vote of kind 0 on post 1 and presses kind 1
twice; the tally of post 1 goes from [1, 0, 0] to [0, 0, 0]. -/
theorem C2_counterexample :
    reactions_cnt ⟨[⟨1, 0, 7⟩], [], []⟩ (some 1) = some [1, 0, 0] ∧
      reactions_cnt (like (like ⟨[⟨1, 0, 7⟩], [], []⟩ 1 1 7 "a") 1 1 7 "a") (some 1) =
        some [0, 0, 0] ∧
      reactions_cnt (like (like ⟨[⟨1, 0, 7⟩], [], []⟩ 1 1 7 "a") 1 1 7 "a") (some 1) ≠
        reactions_cnt ⟨[⟨1, 0, 7⟩], [], []⟩ (some 1) := by
  decide

/-- C2, amended (toggle symmetry): when the rows of user `u` on post `p` are none, or exactly one
row of kind `k`, two presses in a row of the button `(p, k, u)` leave the tally of post `p`, as
`getLikeKeyboard` computes it, and the keyboard of `p` as they were before the first press. -/
theorem C2_double_press (db : DB) (p k u : Int) (name1 name2 : String)
    (h1 : ∀ r ∈ rowsOf db p u, r.reaction_type = k) (h2 : (rowsOf db p u).length ≤ 1) :
    reactions_cnt (like (like db p k u name1) p k u name2) (some p) = reactions_cnt db (some p) ∧
      getLikeKeyboard (like (like db p k u name1) p k u name2) (some p) =
        getLikeKeyboard db (some p) ∧
      ∀ j : Int, kindCount (like (like db p k u name1) p k u name2) p j = kindCount db p j :=
  have hp := like_like_perm db p k u name1 name2 h1 h2
  ⟨reactions_cnt_perm db _ hp (some p), getLikeKeyboard_perm db _ hp (some p),
    fun j => kindCount_perm db _ hp p j⟩

/-- Witness of C2: user 7 holds the vote of kind 1 on post 1 and presses kind 1 twice. -/
theorem C2_double_press_witness :
    reactions_cnt (like (like ⟨[⟨1, 1, 7⟩, ⟨1, 0, 8⟩], [], []⟩ 1 1 7 "a") 1 1 7 "a") (some 1) =
      reactions_cnt ⟨[⟨1, 1, 7⟩, ⟨1, 0, 8⟩], [], []⟩ (some 1) :=
  (C2_double_press ⟨[⟨1, 1, 7⟩, ⟨1, 0, 8⟩], [], []⟩ 1 1 7 "a" "a" (by decide) (by decide)).1

/-! ## The poll loop -/

/-- The keyboard of a nil post id is the zero-tally keyboard, on every store. -/
theorem getLikeKeyboard_nil (db : DB) : getLikeKeyboard db none = some (spec_keyboard 0 0 0) := by
  simp only [getLikeKeyboard, reactions_cnt, reactions, List.length_cons, List.length_nil,
    List.replicate, writeButtons_eq]

/-- An update that is handled without a panic returns its own identifier. -/
theorem handleUpdate_ok_id (remote : Remote) (chatId : Int) (w w1 : World) (u : tUpdate)
    (i : Int) (h : handleUpdate remote chatId w u = .ok w1 i) : u.Update_id = some i := by
  unfold handleUpdate at h
  split at h
  · cases h
  · rename_i updateId hid
    simp only at h
    split at h
    · cases h
    · split at h
      · cases h
      · simp only [Res.ok.injEq] at h
        rw [hid, h.2]

/-- The offset after a batch handled without a panic: the identifier of the last update plus
one, computed on `int64`. -/
theorem pollBatch_last (remote : Remote) (chatId : Int) (us : List tUpdate) :
    ∀ (w : World) (poffset : Option Int) (u : tUpdate) (w1 : World) (off : Option Int),
      pollBatch remote chatId w poffset (us ++ [u]) = .ok w1 off →
      ∃ i : Int, u.Update_id = some i ∧ off = some (wrapInt64 (i + 1)) := by
  induction us with
  | nil =>
    intro w poffset u w1 off h
    simp only [List.nil_append, pollBatch] at h
    split at h
    · cases h
    · rename_i w2 i hu
      simp only [Res.ok.injEq] at h
      exact ⟨i, handleUpdate_ok_id remote chatId w w2 u i hu, h.2.symm⟩
  | cons a rest ih =>
    intro w poffset u w1 off h
    simp only [List.cons_append, pollBatch] at h
    split at h
    · cases h
    · exact ih _ _ u w1 off h

/-- An `int64` operation whose exact value fits returns that value. -/
theorem wrapInt64_id (x : Int) (h1 : minInt64 ≤ x) (h2 : x ≤ maxInt64) : wrapInt64 x = x := by
  simp only [wrapInt64, minInt64, maxInt64] at *
  omega

/-- Counterexample to C5 as stated: a batch of one update whose identifier is the largest
`int64`, 9223372036854775807.  The update is handled without a panic, and the offset held after
the batch is -9223372036854775808, not the identifier plus one. -/
theorem C5_counterexample :
    pollBatch sampleRemote 1 ⟨DB.empty, []⟩ none [⟨some 9223372036854775807, none, none⟩] =
        .ok ⟨DB.empty, []⟩ (some (-9223372036854775808)) ∧
      (-9223372036854775808 : Int) ≠ 9223372036854775807 + 1 := by
  decide

/-- C5, amended (watermark after a batch): after a non-empty batch handled without a fatal
error, the offset passed to the next `getUpdates` is the identifier `i` of the last update plus
one as computed on `int64`; it equals `i + 1` whenever `i` is an `int64` below the largest one.
After an empty batch the offset is the one held before.  The order of the identifiers plays no
part. -/
theorem C5_watermark (remote : Remote) (chatId : Int) (w : World) (poffset : Option Int)
    (us : List tUpdate) (u : tUpdate) (w1 : World) (off : Option Int)
    (h : pollBatch remote chatId w poffset (us ++ [u]) = .ok w1 off) :
    (∃ i : Int, u.Update_id = some i ∧ off = some (wrapInt64 (i + 1)) ∧
        (minInt64 ≤ i → i < maxInt64 → off = some (i + 1))) ∧
      pollBatch remote chatId w poffset [] = .ok w poffset := by
  obtain ⟨i, hi, ho⟩ := pollBatch_last remote chatId us w poffset u w1 off h
  refine ⟨⟨i, hi, ho, ?_⟩, rfl⟩
  intro h1 h2
  rw [ho, wrapInt64_id (i + 1) (by omega) (by simp only [maxInt64] at *; omega)]

/-- Witness of C5: a batch of three updates, the second one a button press, starting from
offset 4; the offset after the batch is 13. -/
theorem C5_watermark_witness :
    pollBatch sampleRemote 1 ⟨DB.empty, []⟩ (some 4)
        ([⟨some 10, none, none⟩,
          ⟨some 11, none, some (.decoded ⟨some ⟨some 5, some ⟨some 3⟩⟩, some ⟨some 42, "Ann"⟩,
            some "1"⟩)⟩] ++ [⟨some 12, none, none⟩]) =
        .ok ⟨⟨[⟨5, 1, 42⟩], [], []⟩, [⟨"editMessageReplyMarkup", [("chat_id", .int 3),
          ("message_id", .int 5), ("reply_markup", .str (spec_keyboard 0 1 0))]⟩]⟩ (some 13) ∧
      ((∃ i : Int, (⟨some 12, none, none⟩ : tUpdate).Update_id = some i ∧
          some (13 : Int) = some (wrapInt64 (i + 1)) ∧
          (minInt64 ≤ i → i < maxInt64 → some (13 : Int) = some (i + 1))) ∧
        pollBatch sampleRemote 1 ⟨DB.empty, []⟩ (some 4) [] = .ok ⟨DB.empty, []⟩ (some 4)) :=
  ⟨by decide,
    C5_watermark sampleRemote 1 ⟨DB.empty, []⟩ (some 4)
      [⟨some 10, none, none⟩,
        ⟨some 11, none, some (.decoded ⟨some ⟨some 5, some ⟨some 3⟩⟩, some ⟨some 42, "Ann"⟩,
          some "1"⟩)⟩]
      ⟨some 12, none, none⟩
      ⟨⟨[⟨5, 1, 42⟩], [], []⟩, [⟨"editMessageReplyMarkup", [("chat_id", .int 3),
        ("message_id", .int 5), ("reply_markup", .str (spec_keyboard 0 1 0))]⟩]⟩
      (some 13) (by decide)⟩

/-! ## The button press -/

/-- A payload whose number is outside the catalog: fatal, nothing changed. -/
theorem handleCallback_out_of_range (remote : Remote) (w : World) (message : Option tCallbackMessage)
    (sender : Option tUser) (data : String) (h : (Atoi data).1 < 0 ∨ (Atoi data).1 ≥ 3) :
    handleCallback remote w (.decoded ⟨message, sender, some data⟩) = .panic w := by
  simp only [handleCallback, reactions, List.length_cons, List.length_nil]
  rw [if_pos (by simpa using h)]

/-- A payload whose number is in the catalog: the toggle is applied. -/
theorem handleCallback_in_range (remote : Remote) (w : World) (messageId userId : Int)
    (chat : Option tChat) (firstName data : String)
    (h : 0 ≤ (Atoi data).1 ∧ (Atoi data).1 < 3) :
    (handleCallback remote w
      (.decoded ⟨some ⟨some messageId, chat⟩, some ⟨some userId, firstName⟩, some data⟩)).world.db =
      like w.db messageId (Atoi data).1 userId firstName := by
  simp only [handleCallback, reactions, List.length_cons, List.length_nil]
  rw [if_neg (by simp; omega)]
  split
  · split <;> rfl
  · rfl

/-- A payload whose digits leave `uint64` before a byte that is not a digit is reached:
`strconv.Atoi` reports the range error with the largest `int64`, and the press is fatal with the
store as it was. -/
theorem handleCallback_range_error :
    Atoi "99999999999999999999x" = (9223372036854775807, true) ∧
      handleCallback sampleRemote ⟨DB.empty, []⟩
        (.decoded ⟨some ⟨some 5, some ⟨some 3⟩⟩, some ⟨some 42, "Ann"⟩,
          some "99999999999999999999x"⟩) = .panic ⟨DB.empty, []⟩ := by
  decide

/-- C6 (callback payload validation), the code at the failing input: the payload "abc" does
not decode as an integer, `strconv.Atoi` returns 0 together with an error, the error is never
read, 0 passes the range check, and the toggle of kind 0 is applied: the run ends without a
panic and the store, empty before, holds the row (5, 0, 42). -/
theorem C6_unparsed_payload_toggles :
    Atoi "abc" = (0, true) ∧
      handleCallback sampleRemote ⟨DB.empty, []⟩
        (.decoded ⟨some ⟨some 5, some ⟨some 3⟩⟩, some ⟨some 42, "Ann"⟩, some "abc"⟩) =
        .ok ⟨⟨[⟨5, 0, 42⟩], [], []⟩, [⟨"editMessageReplyMarkup", [("chat_id", .int 3),
          ("message_id", .int 5), ("reply_markup", .str (spec_keyboard 1 0 0))]⟩]⟩ () := by
  decide

/-! ## The authored message -/

/-- Counterexample to C7 as stated: a message without text whose photo list has two entries is
answered with `sendPhoto` carrying the first entry, and `forwardMessage` is not called.  (A
message without text whose photo list is present and empty is not sent through the unsupported
path either: the run panics at `Photo[0]` before any call.) -/
theorem C7_counterexample :
    handleMessage sampleRemote 9 ⟨DB.empty, []⟩
        (.decoded ⟨some 5, some ⟨some 77⟩, none, none, some [⟨"a"⟩, ⟨"b"⟩], none⟩) =
        .ok ⟨⟨[], [⟨5, 77⟩], []⟩, [⟨"sendPhoto", [("chat_id", .int 9), ("photo", .str "a"),
          ("reply_markup", .str (spec_keyboard 0 0 0))]⟩]⟩ () ∧
      handleMessage sampleRemote 9 ⟨DB.empty, []⟩
        (.decoded ⟨some 5, some ⟨some 77⟩, none, none, some [], none⟩) =
        .panic ⟨⟨[], [⟨5, 77⟩], []⟩, []⟩ := by
  decide

/-- C7, amended (content classification): for a decoded message with its identifier and its
chat identifier, the calls issued by `handleMessage` are: one `sendMessage` with the text when
text is present; one `sendPhoto` with the file of the first entry when there is no text and the
photo list is present with one or more entries; one `sendAnimation` with the file, width, height
and duration of the animation (and the caption when there is one) when there is no text, no
photo list and an animation with these three fields; and, when there is no text, no photo list
and no animation, `forwardMessage` first, followed by the prompt once the forward is answered
with a message identifier.  Every reply carries the zero-tally keyboard. -/
theorem C7_classification (remote : Remote) (chatId : Int) (w : World) (m c : Int) :
    (∀ (text : String) (animation : Option tAnimation) (photo : Option (List tPhoto))
        (caption : Option String),
        (handleMessage remote chatId w
          (.decoded ⟨some m, some ⟨some c⟩, some text, animation, photo, caption⟩)).world.calls =
          w.calls ++ [⟨"sendMessage", [("chat_id", .int chatId), ("text", .str text),
            ("reply_markup", .str (spec_keyboard 0 0 0))]⟩]) ∧
      (∀ (photo0 : tPhoto) (rest : List tPhoto) (animation : Option tAnimation)
        (caption : Option String),
        (handleMessage remote chatId w
          (.decoded ⟨some m, some ⟨some c⟩, none, animation, some (photo0 :: rest), caption⟩)).world.calls =
          w.calls ++ [⟨"sendPhoto", [("chat_id", .int chatId), ("photo", .str photo0.File_id),
            ("reply_markup", .str (spec_keyboard 0 0 0))]⟩]) ∧
      (∀ (fileId : String) (width height duration : Int),
        (handleMessage remote chatId w
          (.decoded ⟨some m, some ⟨some c⟩, none,
            some ⟨fileId, some width, some height, some duration⟩, none, none⟩)).world.calls =
          w.calls ++ [⟨"sendAnimation", [("chat_id", .int chatId), ("animation", .str fileId),
            ("width", .int width), ("height", .int height), ("duration", .int duration),
            ("reply_markup", .str (spec_keyboard 0 0 0))]⟩] ∧
        ∀ caption : String,
        (handleMessage remote chatId w
          (.decoded ⟨some m, some ⟨some c⟩, none,
            some ⟨fileId, some width, some height, some duration⟩, none, some caption⟩)).world.calls =
          w.calls ++ [⟨"sendAnimation", [("chat_id", .int chatId), ("animation", .str fileId),
            ("width", .int width), ("height", .int height), ("duration", .int duration),
            ("caption", .str caption), ("reply_markup", .str (spec_keyboard 0 0 0))]⟩]) ∧
      (∀ caption : Option String, ∃ more : List Call,
        (handleMessage remote chatId w
          (.decoded ⟨some m, some ⟨some c⟩, none, none, none, caption⟩)).world.calls =
          w.calls ++ ⟨"forwardMessage", [("chat_id", .int chatId), ("from_chat_id", .int c),
            ("message_id", .int m)]⟩ :: more ∧
        (more = [] ∨ more = [⟨"sendMessage", [("chat_id", .int chatId),
          ("text", .str "^^Нраица?"), ("reply_markup", .str (spec_keyboard 0 0 0))]⟩]) ∧
        (∀ f : Int, remote ⟨"forwardMessage", [("chat_id", .int chatId), ("from_chat_id", .int c),
            ("message_id", .int m)]⟩ w.calls = .result (.message (some f)) →
          more = [⟨"sendMessage", [("chat_id", .int chatId),
            ("text", .str "^^Нраица?"), ("reply_markup", .str (spec_keyboard 0 0 0))]⟩])) := by
  refine ⟨?_, ?_, ?_, ?_⟩
  · intro text animation photo caption
    simp only [handleMessage, chooseReply, getLikeKeyboard_nil, request]
    split <;> (rename_i heq; simp only [Prod.mk.injEq] at heq; obtain ⟨rfl, -⟩ := heq; rfl)
  · intro photo0 rest animation caption
    simp only [handleMessage, chooseReply, getLikeKeyboard_nil, request]
    split <;> (rename_i heq; simp only [Prod.mk.injEq] at heq; obtain ⟨rfl, -⟩ := heq; rfl)
  · intro fileId width height duration
    constructor
    · simp only [handleMessage, chooseReply, getLikeKeyboard_nil, request]
      split <;> (rename_i heq; simp only [Prod.mk.injEq] at heq; obtain ⟨rfl, -⟩ := heq; rfl)
    · intro caption
      simp only [handleMessage, chooseReply, getLikeKeyboard_nil, request]
      split <;> (rename_i heq; simp only [Prod.mk.injEq] at heq; obtain ⟨rfl, -⟩ := heq; rfl)
  · intro caption
    simp only [handleMessage, chooseReply, getLikeKeyboard_nil, request]
    split
    · rename_i heq; simp only [Prod.mk.injEq] at heq; obtain ⟨rfl, hr⟩ := heq
      exact ⟨[], rfl, Or.inl rfl, fun f hf => by rw [hf] at hr; cases hr⟩
    · rename_i heq; simp only [Prod.mk.injEq] at heq; obtain ⟨rfl, hr⟩ := heq
      exact ⟨[], rfl, Or.inl rfl, fun f hf => by rw [hf] at hr; cases hr⟩
    · rename_i heq; simp only [Prod.mk.injEq] at heq; obtain ⟨rfl, hr⟩ := heq
      exact ⟨[], rfl, Or.inl rfl, fun f hf => by rw [hf] at hr; cases hr⟩
    · rename_i heq; simp only [Prod.mk.injEq] at heq; obtain ⟨rfl, -⟩ := heq
      split <;>
        (rename_i heq2; simp only [Prod.mk.injEq] at heq2; obtain ⟨rfl, -⟩ := heq2
         exact ⟨_, by simp [Res.world], Or.inr rfl, fun _ _ => rfl⟩)

/-- Witness of C7: a text message, and an animation with a caption, sent by chat 77. -/
theorem C7_classification_witness :
    (handleMessage sampleRemote 9 ⟨DB.empty, []⟩
        (.decoded ⟨some 5, some ⟨some 77⟩, some "hello", none, none, none⟩)).world.calls =
        [⟨"sendMessage", [("chat_id", .int 9), ("text", .str "hello"),
          ("reply_markup", .str (spec_keyboard 0 0 0))]⟩] ∧
      (handleMessage sampleRemote 9 ⟨DB.empty, []⟩
        (.decoded ⟨some 5, some ⟨some 77⟩, none, some ⟨"gif", some 320, some 240, some 3⟩, none,
          some "look"⟩)).world.calls =
        [⟨"sendAnimation", [("chat_id", .int 9), ("animation", .str "gif"), ("width", .int 320),
          ("height", .int 240), ("duration", .int 3), ("caption", .str "look"),
          ("reply_markup", .str (spec_keyboard 0 0 0))]⟩] :=
  ⟨(C7_classification sampleRemote 9 ⟨DB.empty, []⟩ 5 77).1 "hello" none none none,
    ((C7_classification sampleRemote 9 ⟨DB.empty, []⟩ 5 77).2.2.1 "gif" 320 240 3).2 "look"⟩

/-- The reply chosen is the unsupported one only without text, photo list and animation. -/
theorem chooseReply_unsupported (chatId : Int) (message : tMessage) (method : String)
    (params : List (String × Value)) (h : chooseReply chatId message = some ⟨false, method, params⟩) :
    message.Text = none ∧ message.Photo = none ∧ message.Animation = none := by
  unfold chooseReply at h
  split at h
  · simp at h
  · split at h
    · split at h <;> simp at h
    · split at h
      · split at h
        · split at h <;> simp at h
        · simp at h
      · simp_all

/-- A message with text, a photo list or an animation never adds a row to
`unsupported_messages` and never touches `likes`, whatever the outcome. -/
theorem handleMessage_supported_frame (remote : Remote) (chatId : Int) (w : World)
    (message : tMessage)
    (h : message.Text ≠ none ∨ message.Photo ≠ none ∨ message.Animation ≠ none) :
    (handleMessage remote chatId w (.decoded message)).world.db.unsupported_messages =
        w.db.unsupported_messages ∧
      (handleMessage remote chatId w (.decoded message)).world.db.likes = w.db.likes := by
  simp only [handleMessage]
  split
  · split
    · exact ⟨rfl, rfl⟩
    · simp only [getLikeKeyboard_nil, request]
      split <;> (rename_i heq; simp only [Prod.mk.injEq] at heq; obtain ⟨rfl, -⟩ := heq
                 exact ⟨rfl, rfl⟩)
    · rename_i hreply
      have hno := chooseReply_unsupported chatId message _ _ hreply
      rcases h with h | h | h
      · exact absurd hno.1 h
      · exact absurd hno.2.1 h
      · exact absurd hno.2.2 h
  · exact ⟨rfl, rfl⟩

/-- Counterexample to C8 as stated: a message without text and without animation whose photo
list is present and empty carries no photo, and the remote side answers `forwardMessage` with
message 100 and the `sendMessage` that would follow with message 101; yet `handleMessage` panics
at `Photo[0]` after the author row is written: no call is issued and no row is added to
`unsupported_messages`. -/
theorem C8_counterexample :
    sampleRemote ⟨"forwardMessage", [("chat_id", .int 9), ("from_chat_id", .int 77),
        ("message_id", .int 5)]⟩ [] = .result (.message (some 100)) ∧
      sampleRemote ⟨"sendMessage", [("chat_id", .int 9), ("text", .str "^^Нраица?"),
        ("reply_markup", .str (spec_keyboard 0 0 0))]⟩
        [⟨"forwardMessage", [("chat_id", .int 9), ("from_chat_id", .int 77),
          ("message_id", .int 5)]⟩] = .result (.message (some 101)) ∧
      handleMessage sampleRemote 9 ⟨DB.empty, []⟩
        (.decoded ⟨some 5, some ⟨some 77⟩, none, none, some [], none⟩) =
        .panic ⟨⟨[], [⟨5, 77⟩], []⟩, []⟩ ∧
      (handleMessage sampleRemote 9 ⟨DB.empty, []⟩
        (.decoded ⟨some 5, some ⟨some 77⟩, none, none, some [], none⟩)).world.calls = [] ∧
      (handleMessage sampleRemote 9 ⟨DB.empty, []⟩
        (.decoded ⟨some 5, some ⟨some 77⟩, none, none, some [], none⟩)).world.db.unsupported_messages
        = [] := by
  decide

/-- C8, amended (unsupported-content path): for a message without text, without photo list (the
field absent, not merely empty) and without animation, when `forwardMessage` is answered with
message `f` and the `sendMessage` that follows with message `q`, `handleMessage` returns after
exactly these two calls in this order (`forwardMessage` with `chat_id` the target conversation,
`from_chat_id` the originating chat and `message_id` the original message; `sendMessage` to the
target conversation with the prompt and the zero-tally keyboard, which is
`getLikeKeyboard(nil)`), with one row `(f, q)` appended to `unsupported_messages` and `likes` as
before.  A message with text, a photo list or an animation adds no row to
`unsupported_messages`, whatever the outcome of its handling. -/
theorem C8_unsupported_path (remote : Remote) (chatId : Int) (w : World) (m c f q : Int)
    (caption : Option String)
    (hf : remote ⟨"forwardMessage", [("chat_id", .int chatId), ("from_chat_id", .int c),
        ("message_id", .int m)]⟩ w.calls = .result (.message (some f)))
    (hq : remote ⟨"sendMessage", [("chat_id", .int chatId), ("text", .str "^^Нраица?"),
        ("reply_markup", .str (spec_keyboard 0 0 0))]⟩
        (w.calls ++ [⟨"forwardMessage", [("chat_id", .int chatId), ("from_chat_id", .int c),
          ("message_id", .int m)]⟩]) = .result (.message (some q))) :
    handleMessage remote chatId w (.decoded ⟨some m, some ⟨some c⟩, none, none, none, caption⟩) =
        .ok ⟨⟨w.db.likes, w.db.authors ++ [⟨m, c⟩], w.db.unsupported_messages ++ [⟨f, q⟩]⟩,
          w.calls ++ [⟨"forwardMessage", [("chat_id", .int chatId), ("from_chat_id", .int c),
              ("message_id", .int m)]⟩,
            ⟨"sendMessage", [("chat_id", .int chatId), ("text", .str "^^Нраица?"),
              ("reply_markup", .str (spec_keyboard 0 0 0))]⟩]⟩ () ∧
      getLikeKeyboard w.db none = some (spec_keyboard 0 0 0) ∧
      ∀ message : tMessage,
        message.Text ≠ none ∨ message.Photo ≠ none ∨ message.Animation ≠ none →
        (handleMessage remote chatId w (.decoded message)).world.db.unsupported_messages =
          w.db.unsupported_messages ∧
        (handleMessage remote chatId w (.decoded message)).world.db.likes = w.db.likes := by
  refine ⟨?_, getLikeKeyboard_nil w.db, handleMessage_supported_frame remote chatId w⟩
  simp [handleMessage, chooseReply, getLikeKeyboard_nil, request, hf, hq]

/-- Witness of C8: message 5 of chat 77 without content, forwarded as message 100 and prompted
as message 101. -/
theorem C8_unsupported_path_witness :
    handleMessage sampleRemote 9 ⟨DB.empty, []⟩
      (.decoded ⟨some 5, some ⟨some 77⟩, none, none, none, none⟩) =
      .ok ⟨⟨[], [⟨5, 77⟩], [⟨100, 101⟩]⟩,
        [⟨"forwardMessage", [("chat_id", .int 9), ("from_chat_id", .int 77), ("message_id", .int 5)]⟩,
          ⟨"sendMessage", [("chat_id", .int 9), ("text", .str "^^Нраица?"),
            ("reply_markup", .str (spec_keyboard 0 0 0))]⟩]⟩ () :=
  (C8_unsupported_path sampleRemote 9 ⟨DB.empty, []⟩ 5 77 100 101 none (by decide) (by decide)).1

end Teleposter
